import Mathlib

/-
Verification of the Frame Decoder & Action Resolver of the homey-lexman
remote-control app.  The definitions below are shallow embeddings of the
JavaScript source: byte values become `Nat`, JavaScript `undefined` becomes
`none`, buffers become `List Nat`, and the mutable per-device
`this.lastButtonPress` field becomes explicit state of type
`Option LastButtonPress` threaded through each function.  Timestamps are
`Nat` milliseconds; the JavaScript comparison `Date.now() - ts < 2000`
behaves identically to truncated `Nat` subtraction here (a negative
difference and a truncated-to-zero difference both satisfy `< 2000`).
-/

namespace AdeoRemote

/-- State stored by `determineGreenButtonFromHistory` in the device field
`this.lastButtonPress` (src/unnamed/part_001). -/
structure LastButtonPress where
  buttonId : Nat
  param : Nat
  action : String
  timestamp : Nat
  deriving DecidableEq, Repr

/-- Embedding of `determineGreenButtonFromHistory(buttonId, param)` from
src/unnamed/part_001 lines 405-445.  The JavaScript guard
`this.lastButtonPress && this.lastButtonPress.buttonId` requires a stored
entry with a truthy (non-zero) `buttonId`; the inner guard requires
`Date.now() - timestamp < 2000` and a matching `param`.  On a cache hit the
stored entry is returned unchanged (the timestamp is not refreshed); on a
miss the action is recomputed from the parity of `buttonId` and a fresh
entry is stored with the current time. -/
def determineGreenButtonFromHistory (buttonId param now : Nat)
    (st : Option LastButtonPress) : String × Option LastButtonPress :=
  match st with
  | some lbp =>
      if lbp.buttonId ≠ 0 ∧ now - lbp.timestamp < 2000 ∧ lbp.param = param then
        (lbp.action, some lbp)
      else if buttonId % 2 = 1 then
        ("pressed_green_left", some ⟨buttonId, param, "pressed_green_left", now⟩)
      else
        ("pressed_green_right", some ⟨buttonId, param, "pressed_green_right", now⟩)
  | none =>
      if buttonId % 2 = 1 then
        ("pressed_green_left", some ⟨buttonId, param, "pressed_green_left", now⟩)
      else
        ("pressed_green_right", some ⟨buttonId, param, "pressed_green_right", now⟩)

/-- Embedding of the fixed `buttonMap` object literal inside `parseButtonId`
(src/unnamed/part_001 lines 346-369): keys 0x17-0x28. -/
def buttonMap (buttonId : Nat) : Option String :=
  if buttonId = 0x17 then some "pressed_green_up"
  else if buttonId = 0x18 then some "pressed_green_down"
  else if buttonId = 0x19 then some "pressed_green_left"
  else if buttonId = 0x1a then some "pressed_green_right"
  else if buttonId = 0x1b then some "pressed_red_up"
  else if buttonId = 0x1c then some "pressed_red_down"
  else if buttonId = 0x1d then some "pressed_green_up"
  else if buttonId = 0x1e then some "pressed_green_down"
  else if buttonId = 0x1f then some "pressed_green_left"
  else if buttonId = 0x20 then some "pressed_green_right"
  else if buttonId = 0x21 then some "pressed_red_up"
  else if buttonId = 0x22 then some "pressed_red_down"
  else if buttonId = 0x23 then some "pressed_green_up"
  else if buttonId = 0x24 then some "pressed_green_down"
  else if buttonId = 0x25 then some "pressed_green_left"
  else if buttonId = 0x26 then some "pressed_green_right"
  else if buttonId = 0x27 then some "pressed_red_up"
  else if buttonId = 0x28 then some "pressed_red_down"
  else none

/-- Embedding of `parseButtonId(buttonId, param)` from src/unnamed/part_001
lines 340-400.  The fixed `buttonMap` lookup is tried first; then the
parameter-pattern branches: `param 0x4c` and `param 0x05` resolve by parity
of `buttonId` with no state change, `param 0x02` delegates to
`determineGreenButtonFromHistory`, and anything else returns no action
(`return null` at line 399). -/
def parseButtonId (buttonId param now : Nat) (st : Option LastButtonPress) :
    Option String × Option LastButtonPress :=
  match buttonMap buttonId with
  | some a => (some a, st)
  | none =>
      if param = 0x4c then
        (some (if buttonId % 2 = 1 then "pressed_red_up" else "pressed_red_down"), st)
      else if param = 0x05 then
        (some (if buttonId % 2 = 1 then "pressed_green_up" else "pressed_green_down"), st)
      else if param = 0x02 then
        let r := determineGreenButtonFromHistory buttonId param now st
        (some r.1, r.2)
      else
        (none, st)

/-- Embedding of `parseButtonWithContext(buttonId, param, dataByte, frameBuffer)`
from src/unnamed/part_001 lines 298-335: the six-entry structured context
table, falling back to `parseButtonId` when no `(param, dataByte)` pair
matches. -/
def parseButtonWithContext (buttonId param dataByte now : Nat)
    (st : Option LastButtonPress) : Option String × Option LastButtonPress :=
  if param = 0x02 ∧ dataByte = 0x01 then
    (some "pressed_green_right", st)
  else if param = 0x02 ∧ dataByte = 0x03 then
    (some "pressed_green_left", st)
  else if param = 0x05 ∧ dataByte = 0x01 then
    (some "pressed_green_up", st)
  else if param = 0x05 ∧ dataByte = 0x03 then
    (some "pressed_green_down", st)
  else if param = 0x4c ∧ dataByte = 0x01 then
    (some "pressed_red_up", st)
  else if param = 0x4c ∧ dataByte = 0x03 then
    (some "pressed_red_down", st)
  else
    parseButtonId buttonId param now st

/-- Embedding of `parseBrightnessCommand(cmdId, direction)` from
src/unnamed/part_001 lines 484-493. -/
def parseBrightnessCommand (direction : Nat) : Option String :=
  if direction = 0x00 ∨ direction = 0x01 then some "pressed_brightness_down"
  else if direction = 0x03 ∨ direction = 0x02 then some "pressed_brightness_up"
  else none

/-- Embedding of `parseColorLeftRightCommand(cmdId, direction)` from
src/unnamed/part_001 lines 498-507. -/
def parseColorLeftRightCommand (direction : Nat) : Option String :=
  if direction = 0x00 ∨ direction = 0x01 then some "pressed_color_left"
  else if direction = 0x03 ∨ direction = 0x02 then some "pressed_color_right"
  else none

/-- Embedding of `parseColorUpDownCommand(cmdId, direction)` from
src/unnamed/part_001 lines 512-521. -/
def parseColorUpDownCommand (direction : Nat) : Option String :=
  if direction = 0x00 ∨ direction = 0x01 then some "pressed_color_down"
  else if direction = 0x03 ∨ direction = 0x02 then some "pressed_color_up"
  else none

/-- Embedding of `parseFallbackCommand(direction)` from src/unnamed/part_001
lines 534-543. -/
def parseFallbackCommand (direction : Nat) : Option String :=
  if direction = 0x00 ∨ direction = 0x01 then some "pressed_brightness_down"
  else if direction = 0x03 ∨ direction = 0x02 then some "pressed_brightness_up"
  else none

/-- Embedding of `parseColorControlCommand(cmdId, direction, buttonData)` from
src/unnamed/part_001 lines 458-479.  The JavaScript `actionMap` object has
keys 76, 5, 2, 3, 4, 6, `undefined` and 0; `actionMap[cmdId]` for a `cmdId`
outside those keys is `undefined`, so the function returns `null`.
`cmdId = none` models a JavaScript `undefined` command id. -/
def parseColorControlCommand (cmdId : Option Nat) (direction : Nat) : Option String :=
  match cmdId with
  | none => parseFallbackCommand direction
  | some c =>
      if c = 76 then parseBrightnessCommand direction
      else if c = 5 then parseBrightnessCommand direction
      else if c = 2 then parseColorLeftRightCommand direction
      else if c = 3 then parseColorLeftRightCommand direction
      else if c = 4 then parseColorUpDownCommand direction
      else if c = 6 then some "pressed_color_center"
      else if c = 0 then parseFallbackCommand direction
      else none

/-- Embedding of the JavaScript expression `frame.cmdId || frameBuffer[0]`
at src/unnamed/part_001 line 277: a falsy left operand (`undefined` or 0)
yields the right operand (which may itself be `undefined` on an empty
buffer). -/
def jsOrCmd (cmdId : Option Nat) (b : Option Nat) : Option Nat :=
  match cmdId with
  | some n => if n = 0 then b else some n
  | none => b

/-- Embedding of the decode dispatch of `handleColorControlFrame(frame, meta)`
from src/unnamed/part_001 lines 235-293: the structured path applies when
`frameBuffer.length >= 4 && frameBuffer[0] === 0x01` and reads
`buttonId = frameBuffer[1]`, `param = frameBuffer[2]`,
`dataByte = frameBuffer[3]`; otherwise the legacy path uses
`cmdId = frame.cmdId || frameBuffer[0]` and
`direction = frameBuffer[1] || 0x00`.  The returned pair is the emitted
action (if any) and the updated recency state. -/
def handleColorControlFrame (cmdId : Option Nat) (frameBuffer : List Nat)
    (now : Nat) (st : Option LastButtonPress) :
    Option String × Option LastButtonPress :=
  if 4 ≤ frameBuffer.length ∧ frameBuffer.getD 0 0 = 0x01 then
    parseButtonWithContext (frameBuffer.getD 1 0) (frameBuffer.getD 2 0)
      (frameBuffer.getD 3 0) now st
  else
    (parseColorControlCommand (jsOrCmd cmdId (frameBuffer.get? 0))
      (frameBuffer.getD 1 0), st)

end AdeoRemote

namespace ZBEK26

/-- Embedding of the `sceneMap` object literal in `handleManufacturerFrame`
(src/drivers/ZBEK-26/device.js line 208): `{0x0a: 1, 0x0b: 2, 0x0c: 3, 0x0d: 4}`. -/
def sceneMap (buttonId : Nat) : Option Nat :=
  if buttonId = 0x0a then some 1
  else if buttonId = 0x0b then some 2
  else if buttonId = 0x0c then some 3
  else if buttonId = 0x0d then some 4
  else none

/-- Embedding of the action string built by `triggerSceneButton(sceneId)`
(src/drivers/ZBEK-26/device.js line 420): the template literal
`pressed_scene_` followed by the scene id. -/
def triggerSceneButtonAction (sceneId : Nat) : String :=
  "pressed_scene_" ++ toString sceneId

/-- Embedding of `handleManufacturerFrame(frame, meta)` from
src/drivers/ZBEK-26/device.js lines 195-218, returning the emitted action:
frames shorter than 6 bytes are ignored; otherwise `buttonId = frame[5]` is
looked up in `sceneMap` and a hit emits `pressed_scene_<n>` via
`triggerSceneButton`; a miss emits nothing. -/
def handleManufacturerFrame (frame : List Nat) : Option String :=
  if 6 ≤ frame.length then
    match sceneMap (frame.getD 5 0) with
    | some sceneId => some (triggerSceneButtonAction sceneId)
    | none => none
  else
    none

/-- Embedding of the `onStep` handler installed by `setupLevelControlCluster`
(src/drivers/ZBEK-26/device.js lines 331-345):
`payload.stepMode === 0` means brightness up, anything else brightness down. -/
def onStepAction (stepMode : Nat) : String :=
  if stepMode = 0 then "pressed_brightness_up" else "pressed_brightness_down"

end ZBEK26

namespace LevelControlBoundCluster

/-- Embedding of the payload correction in `LevelControlBoundCluster.step`
(src/unnamed/part_005 lines 9-16): `stepMode: payload.mode === 'up' ? 0 : 1`. -/
def correctedStepMode (mode : String) : Nat :=
  if mode = "up" then 0 else 1

/-- Composition of the bound-cluster correction with the ZBEK-26 `onStep`
handler: the action produced for a raw step command with the given `mode`. -/
def stepAction (mode : String) : String :=
  ZBEK26.onStepAction (correctedStepMode mode)

end LevelControlBoundCluster

namespace AdeoLight

/-- Embedding of the `recallScene` branch of `onScenesCommand` from
src/unnamed/part_002 lines 207-226: the button id is the template literal
`button_` followed by `Math.min(args.sceneId + 1, 4)`. -/
def recallSceneButton (sceneId : Nat) : String :=
  "button_" ++ toString (Nat.min (sceneId + 1) 4)

end AdeoLight

/-
Helper lemmas shared by several claim theorems.
-/

/-- The fixed button table has no entry outside the key range 0x17-0x28. -/
theorem buttonMap_eq_none (b : Nat) (h : b < 0x17 ∨ 0x28 < b) :
    AdeoRemote.buttonMap b = none := by
  have h23 : b ≠ 0x17 := by omega
  have h24 : b ≠ 0x18 := by omega
  have h25 : b ≠ 0x19 := by omega
  have h26 : b ≠ 0x1a := by omega
  have h27 : b ≠ 0x1b := by omega
  have h28 : b ≠ 0x1c := by omega
  have h29 : b ≠ 0x1d := by omega
  have h30 : b ≠ 0x1e := by omega
  have h31 : b ≠ 0x1f := by omega
  have h32 : b ≠ 0x20 := by omega
  have h33 : b ≠ 0x21 := by omega
  have h34 : b ≠ 0x22 := by omega
  have h35 : b ≠ 0x23 := by omega
  have h36 : b ≠ 0x24 := by omega
  have h37 : b ≠ 0x25 := by omega
  have h38 : b ≠ 0x26 := by omega
  have h39 : b ≠ 0x27 := by omega
  have h40 : b ≠ 0x28 := by omega
  simp [AdeoRemote.buttonMap, h23, h24, h25, h26, h27, h28, h29, h30, h31, h32,
    h33, h34, h35, h36, h37, h38, h39, h40]

/-- Inside the key range 0x17-0x28 the fixed button table always has an entry. -/
theorem buttonMap_isSome (b : Nat) (h1 : 0x17 ≤ b) (h2 : b ≤ 0x28) :
    ∃ a, AdeoRemote.buttonMap b = some a := by
  interval_cases b <;> exact ⟨_, rfl⟩

/-- When the structured context table does not match a `param = 0x02` frame,
`parseButtonWithContext` falls through to `parseButtonId`. -/
theorem parseButtonWithContext_param2_fallthrough (b c t : Nat)
    (st : Option AdeoRemote.LastButtonPress) (hc1 : c ≠ 1) (hc3 : c ≠ 3) :
    AdeoRemote.parseButtonWithContext b 2 c t st = AdeoRemote.parseButtonId b 2 t st := by
  unfold AdeoRemote.parseButtonWithContext
  simp [hc1, hc3]

/-- For `param = 0x02` and an identifier outside the fixed table,
`parseButtonId` delegates to the recency-cache resolver. -/
theorem parseButtonId_param2 (b t : Nat) (st : Option AdeoRemote.LastButtonPress)
    (hb : AdeoRemote.buttonMap b = none) :
    AdeoRemote.parseButtonId b 2 t st
      = (some (AdeoRemote.determineGreenButtonFromHistory b 2 t st).1,
         (AdeoRemote.determineGreenButtonFromHistory b 2 t st).2) := by
  simp [AdeoRemote.parseButtonId, hb]

/-- Cache-miss behaviour of the resolver: with no valid matching entry the
action is recomputed from parity and a fresh entry is stored. -/
theorem determineGreen_miss (b p t : Nat) (st : Option AdeoRemote.LastButtonPress)
    (h : ∀ lbp, st = some lbp →
        ¬(lbp.buttonId ≠ 0 ∧ t - lbp.timestamp < 2000 ∧ lbp.param = p)) :
    AdeoRemote.determineGreenButtonFromHistory b p t st
      = if b % 2 = 1 then ("pressed_green_left", some ⟨b, p, "pressed_green_left", t⟩)
        else ("pressed_green_right", some ⟨b, p, "pressed_green_right", t⟩) := by
  cases st with
  | none => rfl
  | some lbp =>
      have hmiss := h lbp rfl
      simp only [AdeoRemote.determineGreenButtonFromHistory, if_neg hmiss]

/-- Cache-hit behaviour of the resolver: a valid matching entry is returned
unchanged (in particular its timestamp is not refreshed). -/
theorem determineGreen_hit (b p t : Nat) (lbp : AdeoRemote.LastButtonPress)
    (h0 : lbp.buttonId ≠ 0) (hfresh : t - lbp.timestamp < 2000) (hp : lbp.param = p) :
    AdeoRemote.determineGreenButtonFromHistory b p t (some lbp) = (lbp.action, some lbp) := by
  have hc : lbp.buttonId ≠ 0 ∧ t - lbp.timestamp < 2000 ∧ lbp.param = p := ⟨h0, hfresh, hp⟩
  simp only [AdeoRemote.determineGreenButtonFromHistory, if_pos hc]

/-
Claim theorems.
-/

/-- C3: Structured color-control decoding.  For every frame whose payload
starts with 0x01 and has length at least 4 (exactly the payloads of the form
`0x01 :: id :: param :: ctx :: rest`), `handleColorControlFrame` decodes
`parameterByte = payload[2]` and `contextByte = payload[3]` by the six-entry
context table, for every identifierByte `payload[1]`: (0x02, 0x01) yields
pressed_green_right, (0x02, 0x03) pressed_green_left, (0x05, 0x01)
pressed_green_up, (0x05, 0x03) pressed_green_down, (0x4c, 0x01)
pressed_red_up and (0x4c, 0x03) pressed_red_down. -/
theorem c3_structured_decoding (cmdId : Option Nat) (id : Nat) (rest : List Nat)
    (now : Nat) (st : Option AdeoRemote.LastButtonPress) :
    (AdeoRemote.handleColorControlFrame cmdId (0x01 :: id :: 0x02 :: 0x01 :: rest) now st).1
        = some "pressed_green_right"
  ∧ (AdeoRemote.handleColorControlFrame cmdId (0x01 :: id :: 0x02 :: 0x03 :: rest) now st).1
        = some "pressed_green_left"
  ∧ (AdeoRemote.handleColorControlFrame cmdId (0x01 :: id :: 0x05 :: 0x01 :: rest) now st).1
        = some "pressed_green_up"
  ∧ (AdeoRemote.handleColorControlFrame cmdId (0x01 :: id :: 0x05 :: 0x03 :: rest) now st).1
        = some "pressed_green_down"
  ∧ (AdeoRemote.handleColorControlFrame cmdId (0x01 :: id :: 0x4c :: 0x01 :: rest) now st).1
        = some "pressed_red_up"
  ∧ (AdeoRemote.handleColorControlFrame cmdId (0x01 :: id :: 0x4c :: 0x03 :: rest) now st).1
        = some "pressed_red_down" := by
  refine ⟨?_, ?_, ?_, ?_, ?_, ?_⟩ <;>
    simp [AdeoRemote.handleColorControlFrame, AdeoRemote.parseButtonWithContext,
      List.getD_cons_succ, List.getD_cons_zero]

/-- C5: Manufacturer-cluster frame decoding.  Frames shorter than 6 bytes
emit no action; with length at least 6, `buttonId = payload[5]` is looked up
in the fixed table {0x0a -> 1, 0x0b -> 2, 0x0c -> 3, 0x0d -> 4}: a mapped
buttonId emits pressed_scene_n and any other buttonId emits no action. -/
theorem c5_manufacturer_decoding (frame : List Nat) :
    (frame.length < 6 → ZBEK26.handleManufacturerFrame frame = none)
  ∧ (6 ≤ frame.length →
        (frame.getD 5 0 = 0x0a → ZBEK26.handleManufacturerFrame frame = some "pressed_scene_1")
      ∧ (frame.getD 5 0 = 0x0b → ZBEK26.handleManufacturerFrame frame = some "pressed_scene_2")
      ∧ (frame.getD 5 0 = 0x0c → ZBEK26.handleManufacturerFrame frame = some "pressed_scene_3")
      ∧ (frame.getD 5 0 = 0x0d → ZBEK26.handleManufacturerFrame frame = some "pressed_scene_4")
      ∧ (frame.getD 5 0 ≠ 0x0a → frame.getD 5 0 ≠ 0x0b → frame.getD 5 0 ≠ 0x0c →
          frame.getD 5 0 ≠ 0x0d → ZBEK26.handleManufacturerFrame frame = none)) := by
  constructor
  · intro hshort
    simp only [ZBEK26.handleManufacturerFrame]
    rw [if_neg (by omega)]
  · intro hlong
    refine ⟨?_, ?_, ?_, ?_, ?_⟩
    · intro hb
      simp only [ZBEK26.handleManufacturerFrame, ZBEK26.sceneMap]
      rw [if_pos hlong, hb]
      rfl
    · intro hb
      simp only [ZBEK26.handleManufacturerFrame, ZBEK26.sceneMap]
      rw [if_pos hlong, hb]
      rfl
    · intro hb
      simp only [ZBEK26.handleManufacturerFrame, ZBEK26.sceneMap]
      rw [if_pos hlong, hb]
      rfl
    · intro hb
      simp only [ZBEK26.handleManufacturerFrame, ZBEK26.sceneMap]
      rw [if_pos hlong, hb]
      rfl
    · intro ha hb hc hd
      simp only [ZBEK26.handleManufacturerFrame, ZBEK26.sceneMap]
      rw [if_pos hlong, if_neg ha, if_neg hb, if_neg hc, if_neg hd]

/-- C5 witness: a short frame emits nothing; a 6-byte frame with
`payload[5] = 0x0a` emits pressed_scene_1; one with `payload[5] = 0x09`
emits nothing. -/
theorem c5_manufacturer_decoding_witness :
    ZBEK26.handleManufacturerFrame [1, 2, 3] = none
  ∧ ZBEK26.handleManufacturerFrame [1, 2, 3, 4, 5, 0x0a] = some "pressed_scene_1"
  ∧ ZBEK26.handleManufacturerFrame [1, 2, 3, 4, 5, 0x09] = none := by
  refine ⟨(c5_manufacturer_decoding [1, 2, 3]).1 (by norm_num), ?_, ?_⟩
  · exact ((c5_manufacturer_decoding [1, 2, 3, 4, 5, 0x0a]).2 (by norm_num)).1 (by rfl)
  · exact ((c5_manufacturer_decoding [1, 2, 3, 4, 5, 0x09]).2
      (by norm_num)).2.2.2.2 (by norm_num) (by norm_num) (by norm_num) (by norm_num)

/-- C6: Level-control normalization.  The onStep handler maps
`stepMode == 0` to pressed_brightness_up and every other stepMode (in
particular 1) to pressed_brightness_down. -/
theorem c6_level_control_step (stepMode : Nat) :
    (stepMode = 0 → ZBEK26.onStepAction stepMode = "pressed_brightness_up")
  ∧ (stepMode ≠ 0 → ZBEK26.onStepAction stepMode = "pressed_brightness_down") := by
  constructor <;> intro h <;> simp [ZBEK26.onStepAction, h]

/-- C6 witness: step mode 0 yields brightness up, step mode 1 yields
brightness down. -/
theorem c6_level_control_step_witness :
    ZBEK26.onStepAction 0 = "pressed_brightness_up"
  ∧ ZBEK26.onStepAction 1 = "pressed_brightness_down" :=
  ⟨(c6_level_control_step 0).1 rfl, (c6_level_control_step 1).2 (by norm_num)⟩

/-- C8: Scene-recall normalization.  Variant A (ZBEK-26 `triggerSceneButton`)
emits `pressed_scene_<sceneId>` directly; variant B (`onScenesCommand` of the
light device) emits the bounded index `min(sceneId + 1, 4)`; in particular
sceneId 2 yields pressed_scene_2 under variant A and index 3 under variant B. -/
theorem c8_scene_recall :
    (∀ sceneId : Nat,
        ZBEK26.triggerSceneButtonAction sceneId = "pressed_scene_" ++ toString sceneId)
  ∧ ZBEK26.triggerSceneButtonAction 2 = "pressed_scene_2"
  ∧ (∀ sceneId : Nat,
        AdeoLight.recallSceneButton sceneId = "button_" ++ toString (Nat.min (sceneId + 1) 4))
  ∧ AdeoLight.recallSceneButton 2 = "button_3" :=
  ⟨fun _ => rfl, rfl, fun _ => rfl, rfl⟩

/-- C2: Recency-cache staleness invariant.  A stored entry for
`parameterByte 0x02` is consulted only while `now - lastSeenAt < 2000`; a
second frame arriving more than 2000ms after the entry was stored is
resolved by parity of its identifierByte (odd yields pressed_green_left,
even yields pressed_green_right) and a fresh entry is stored, regardless of
the stale entry. -/
theorem c2_cache_expiry (lbp : AdeoRemote.LastButtonPress) (b now : Nat)
    (hstale : lbp.timestamp + 2000 < now) :
    AdeoRemote.determineGreenButtonFromHistory b 2 now (some lbp)
      = if b % 2 = 1 then ("pressed_green_left", some ⟨b, 2, "pressed_green_left", now⟩)
        else ("pressed_green_right", some ⟨b, 2, "pressed_green_right", now⟩) := by
  apply determineGreen_miss
  rintro lbp2 heq ⟨-, hlt, -⟩
  cases heq
  omega

/-- C2 witness: an entry stored at time 0 is stale at time 2500; the second
frame with identifierByte 6 is recomputed from parity to
pressed_green_right, differing from the cached pressed_green_left. -/
theorem c2_cache_expiry_witness :
    AdeoRemote.determineGreenButtonFromHistory 6 2 2500
        (some ⟨5, 2, "pressed_green_left", 0⟩)
      = ("pressed_green_right", some ⟨6, 2, "pressed_green_right", 2500⟩)
  ∧ ("pressed_green_right" : String) ≠ "pressed_green_left" := by
  refine ⟨?_, by decide⟩
  have h := c2_cache_expiry ⟨5, 2, "pressed_green_left", 0⟩ 6 2500 (by norm_num)
  simpa using h

/-- C10: Context-table determinism and noninterference.  For a structured
frame whose `(parameterByte, contextByte)` pair matches one of the six
context-table entries, the resolved action depends on that pair alone: two
decodes that agree on the pair but differ in identifierByte, timestamp and
recency-cache state produce the same action, and each decode leaves its
cache state unchanged. -/
theorem c10_context_noninterference (p c : Nat)
    (hmem : (p = 2 ∧ c = 1) ∨ (p = 2 ∧ c = 3) ∨ (p = 5 ∧ c = 1) ∨ (p = 5 ∧ c = 3)
          ∨ (p = 76 ∧ c = 1) ∨ (p = 76 ∧ c = 3))
    (b1 b2 t1 t2 : Nat) (st1 st2 : Option AdeoRemote.LastButtonPress) :
    (AdeoRemote.parseButtonWithContext b1 p c t1 st1).1
      = (AdeoRemote.parseButtonWithContext b2 p c t2 st2).1
  ∧ (AdeoRemote.parseButtonWithContext b1 p c t1 st1).2 = st1
  ∧ (AdeoRemote.parseButtonWithContext b2 p c t2 st2).2 = st2 := by
  rcases hmem with ⟨hp, hc⟩ | ⟨hp, hc⟩ | ⟨hp, hc⟩ | ⟨hp, hc⟩ | ⟨hp, hc⟩ | ⟨hp, hc⟩ <;>
    subst hp <;> subst hc <;>
    exact ⟨rfl, rfl, rfl⟩

/-- C10 witness: two decodes of the table entry (0x02, 0x01) with different
identifier bytes and different cache states agree on the action and leave
both caches untouched. -/
theorem c10_context_noninterference_witness :
    (AdeoRemote.parseButtonWithContext 5 2 1 0 none).1
      = (AdeoRemote.parseButtonWithContext 6 2 1 1000
          (some ⟨5, 2, "pressed_green_left", 0⟩)).1
  ∧ (AdeoRemote.parseButtonWithContext 5 2 1 0 none).2 = none
  ∧ (AdeoRemote.parseButtonWithContext 6 2 1 1000
        (some ⟨5, 2, "pressed_green_left", 0⟩)).2
      = some ⟨5, 2, "pressed_green_left", 0⟩ :=
  c10_context_noninterference 2 1 (Or.inl ⟨rfl, rfl⟩) 5 6 0 1000 none
    (some ⟨5, 2, "pressed_green_left", 0⟩)

/-- C4 counterexample: identifierByte 0x19 (odd) with parameterByte 0x05 is
resolved by the fixed button table to pressed_green_left, not by parity to
pressed_green_up, so parity does not decide every identifierByte. -/
theorem c4_counterexample :
    (AdeoRemote.parseButtonId 0x19 0x05 0 none).1 = some "pressed_green_left"
  ∧ 0x19 % 2 = 1
  ∧ ("pressed_green_left" : String) ≠ "pressed_green_up" :=
  ⟨rfl, rfl, by decide⟩

/-- C4 (amended): for every identifierByte outside the fixed button-table
key range 0x17-0x28, parameterByte 0x05 resolves by parity of the
identifierByte (odd yields pressed_green_up, even pressed_green_down) and
parameterByte 0x4c likewise (odd pressed_red_up, even pressed_red_down);
for both parameter bytes no caching occurs: the recency state is returned
unchanged for every identifierByte. -/
theorem c4_parity_resolution :
    (∀ b t st, b < 0x17 ∨ 0x28 < b →
        AdeoRemote.parseButtonId b 0x05 t st
          = (some (if b % 2 = 1 then "pressed_green_up" else "pressed_green_down"), st))
  ∧ (∀ b t st, b < 0x17 ∨ 0x28 < b →
        AdeoRemote.parseButtonId b 0x4c t st
          = (some (if b % 2 = 1 then "pressed_red_up" else "pressed_red_down"), st))
  ∧ (∀ b t st, (AdeoRemote.parseButtonId b 0x05 t st).2 = st
             ∧ (AdeoRemote.parseButtonId b 0x4c t st).2 = st) := by
  refine ⟨?_, ?_, ?_⟩
  · intro b t st h
    simp [AdeoRemote.parseButtonId, buttonMap_eq_none b h]
  · intro b t st h
    simp [AdeoRemote.parseButtonId, buttonMap_eq_none b h]
  · intro b t st
    cases hbm : AdeoRemote.buttonMap b <;>
      simp [AdeoRemote.parseButtonId, hbm]

/-- C4 witness: identifierByte 1 (outside the table) with parameterByte 0x05
resolves to pressed_green_up by parity, and identifierByte 2 with 0x4c to
pressed_red_down, with the cache untouched. -/
theorem c4_parity_resolution_witness :
    AdeoRemote.parseButtonId 1 0x05 0 none = (some "pressed_green_up", none)
  ∧ AdeoRemote.parseButtonId 2 0x4c 0 none = (some "pressed_red_down", none) := by
  constructor
  · have h := c4_parity_resolution.1 1 0 none (Or.inl (by norm_num))
    simpa using h
  · have h := c4_parity_resolution.2.1 2 0 none (Or.inl (by norm_num))
    simpa using h

/-- C9 counterexample: the pair (identifierByte 1, parameterByte 7) reaches
the final `return null` of `parseButtonId`: no action is produced, so the
no-action branch is reachable. -/
theorem c9_counterexample :
    (AdeoRemote.parseButtonId 1 7 0 none).1 = none := rfl

/-- C9 (amended): the resolver is a total function (it raises nothing) and
yields some action whenever parameterByte is one of 0x02, 0x05, 0x4c or the
identifierByte lies in the fixed button-table range 0x17-0x28; for every
other (identifierByte, parameterByte) pair it yields no action. -/
theorem c9_resolver_totality :
    (∀ b p t st, p = 0x02 ∨ p = 0x05 ∨ p = 0x4c →
        ∃ a, (AdeoRemote.parseButtonId b p t st).1 = some a)
  ∧ (∀ b p t st, 0x17 ≤ b → b ≤ 0x28 →
        ∃ a, (AdeoRemote.parseButtonId b p t st).1 = some a)
  ∧ (∀ b p t st, b < 0x17 ∨ 0x28 < b → ¬(p = 0x02 ∨ p = 0x05 ∨ p = 0x4c) →
        (AdeoRemote.parseButtonId b p t st).1 = none) := by
  refine ⟨?_, ?_, ?_⟩
  · intro b p t st hp
    cases hbm : AdeoRemote.buttonMap b with
    | some a => exact ⟨a, by simp [AdeoRemote.parseButtonId, hbm]⟩
    | none =>
        rcases hp with rfl | rfl | rfl
        · exact ⟨(AdeoRemote.determineGreenButtonFromHistory b 2 t st).1,
            by simp [AdeoRemote.parseButtonId, hbm]⟩
        · exact ⟨if b % 2 = 1 then "pressed_green_up" else "pressed_green_down",
            by simp [AdeoRemote.parseButtonId, hbm]⟩
        · exact ⟨if b % 2 = 1 then "pressed_red_up" else "pressed_red_down",
            by simp [AdeoRemote.parseButtonId, hbm]⟩
  · intro b p t st h1 h2
    obtain ⟨a, ha⟩ := buttonMap_isSome b h1 h2
    exact ⟨a, by simp [AdeoRemote.parseButtonId, ha]⟩
  · intro b p t st hb hp
    have h2 : p ≠ 0x02 := fun h => hp (Or.inl h)
    have h5 : p ≠ 0x05 := fun h => hp (Or.inr (Or.inl h))
    have h76 : p ≠ 0x4c := fun h => hp (Or.inr (Or.inr h))
    simp [AdeoRemote.parseButtonId, buttonMap_eq_none b hb, h2, h5, h76]

/-- C9 witness: parameterByte 0x02 always yields an action (here at
identifierByte 9 on an empty cache), and the off-table pair (1, 7) at time 5
yields none. -/
theorem c9_resolver_totality_witness :
    (∃ a, (AdeoRemote.parseButtonId 9 0x02 0 none).1 = some a)
  ∧ (AdeoRemote.parseButtonId 1 7 5 none).1 = none := by
  constructor
  · exact c9_resolver_totality.1 9 0x02 0 none (Or.inl rfl)
  · exact c9_resolver_totality.2.2 1 7 5 none (Or.inl (by norm_num))
      (by rintro (h | h | h) <;> norm_num at h)

/-- C7 counterexample: a genuinely unknown commandId (7, not a key of the
action map) with direction 0x02 yields no action rather than
pressed_brightness_up, and the recognized commandId 6 with the unrecognized
direction 0x10 yields pressed_color_center rather than no action. -/
theorem c7_counterexample :
    AdeoRemote.parseColorControlCommand (some 7) 0x02 = none
  ∧ AdeoRemote.parseColorControlCommand (some 6) 0x10 = some "pressed_color_center" :=
  ⟨rfl, rfl⟩

/-- C7 (amended): only commandId 0 and undefined route to the fallback,
where direction 0x02/0x03 yields pressed_brightness_up and 0x00/0x01 yields
pressed_brightness_down; a commandId outside {76, 5, 2, 3, 4, 6, 0} and not
undefined yields no action for every direction; for the recognized
commandIds 76, 5, 2, 3, 4 a direction outside {0x00, 0x01, 0x02, 0x03}
yields no action, while commandId 6 yields pressed_color_center for every
direction. -/
theorem c7_legacy_fallback :
    (∀ d, d = 0x02 ∨ d = 0x03 →
        AdeoRemote.parseColorControlCommand none d = some "pressed_brightness_up"
      ∧ AdeoRemote.parseColorControlCommand (some 0) d = some "pressed_brightness_up")
  ∧ (∀ d, d = 0x00 ∨ d = 0x01 →
        AdeoRemote.parseColorControlCommand none d = some "pressed_brightness_down"
      ∧ AdeoRemote.parseColorControlCommand (some 0) d = some "pressed_brightness_down")
  ∧ (∀ c d, ¬(c = 76 ∨ c = 5 ∨ c = 2 ∨ c = 3 ∨ c = 4 ∨ c = 6 ∨ c = 0) →
        AdeoRemote.parseColorControlCommand (some c) d = none)
  ∧ (∀ c d, c = 76 ∨ c = 5 ∨ c = 2 ∨ c = 3 ∨ c = 4 → 4 ≤ d →
        AdeoRemote.parseColorControlCommand (some c) d = none)
  ∧ (∀ d, AdeoRemote.parseColorControlCommand (some 6) d = some "pressed_color_center") := by
  refine ⟨?_, ?_, ?_, ?_, fun d => rfl⟩
  · rintro d (rfl | rfl) <;> exact ⟨rfl, rfl⟩
  · rintro d (rfl | rfl) <;> exact ⟨rfl, rfl⟩
  · intro c d hc
    have n76 : c ≠ 76 := fun h => hc (Or.inl h)
    have n5 : c ≠ 5 := fun h => hc (Or.inr (Or.inl h))
    have n2 : c ≠ 2 := fun h => hc (Or.inr (Or.inr (Or.inl h)))
    have n3 : c ≠ 3 := fun h => hc (Or.inr (Or.inr (Or.inr (Or.inl h))))
    have n4 : c ≠ 4 := fun h => hc (Or.inr (Or.inr (Or.inr (Or.inr (Or.inl h)))))
    have n6 : c ≠ 6 := fun h => hc (Or.inr (Or.inr (Or.inr (Or.inr (Or.inr (Or.inl h))))))
    have n0 : c ≠ 0 := fun h => hc (Or.inr (Or.inr (Or.inr (Or.inr (Or.inr (Or.inr h))))))
    simp [AdeoRemote.parseColorControlCommand, n76, n5, n2, n3, n4, n6, n0]
  · intro c d hc hd
    have d0 : d ≠ 0 := by omega
    have d1 : d ≠ 1 := by omega
    have d2 : d ≠ 2 := by omega
    have d3 : d ≠ 3 := by omega
    rcases hc with rfl | rfl | rfl | rfl | rfl <;>
      simp [AdeoRemote.parseColorControlCommand, AdeoRemote.parseBrightnessCommand,
        AdeoRemote.parseColorLeftRightCommand, AdeoRemote.parseColorUpDownCommand,
        d0, d1, d2, d3]

/-- C7 witness: undefined commandId with direction 0x02 yields brightness
up; the unknown commandId 9 yields none; commandId 76 with direction 0x10
yields none. -/
theorem c7_legacy_fallback_witness :
    AdeoRemote.parseColorControlCommand none 0x02 = some "pressed_brightness_up"
  ∧ AdeoRemote.parseColorControlCommand (some 9) 0x02 = none
  ∧ AdeoRemote.parseColorControlCommand (some 76) 0x10 = none := by
  refine ⟨(c7_legacy_fallback.1 0x02 (Or.inl rfl)).1, ?_, ?_⟩
  · exact c7_legacy_fallback.2.2.1 9 0x02
      (by rintro (h | h | h | h | h | h | h) <;> norm_num at h)
  · exact c7_legacy_fallback.2.2.2.1 76 0x10 (Or.inl rfl) (by norm_num)

/-- C1 counterexample: the sticky path never refreshes the stored timestamp,
so two parameterByte-0x02 frames only 501ms apart can straddle the expiry of
an earlier entry and resolve differently.  A press at time 0 stores an entry;
the frame with identifierByte 5 at time 1999 hits that entry (yielding
pressed_green_left, entry unchanged); the frame with identifierByte 6 at
time 2500 finds the entry stale and recomputes parity, yielding
pressed_green_right. -/
theorem c1_counterexample :
    AdeoRemote.parseButtonWithContext 1 2 0 0 none
      = (some "pressed_green_left", some ⟨1, 2, "pressed_green_left", 0⟩)
  ∧ AdeoRemote.parseButtonWithContext 5 2 0 1999 (some ⟨1, 2, "pressed_green_left", 0⟩)
      = (some "pressed_green_left", some ⟨1, 2, "pressed_green_left", 0⟩)
  ∧ (AdeoRemote.parseButtonWithContext 6 2 0 2500 (some ⟨1, 2, "pressed_green_left", 0⟩)).1
      = some "pressed_green_right"
  ∧ 2500 - 1999 < 2000 :=
  ⟨rfl, rfl, rfl, by norm_num⟩

/-- C1 (amended): sticky resolution holds provided the first frame itself
resolves by parity and stores its entry, i.e. the recency cache holds no
valid (non-zero identifier, parameterByte 0x02, less than 2000ms old) entry
when the first frame arrives.  Then for frames with parameterByte 0x02 whose
context bytes match no entry of the structured table, identifierByte 5
resolves to pressed_green_left and a second frame with identifierByte 6
arriving less than 2000ms later returns the same cached action unchanged. -/
theorem c1_sticky_resolution (ctx1 ctx2 t1 t2 : Nat)
    (st0 : Option AdeoRemote.LastButtonPress)
    (h1a : ctx1 ≠ 1) (h1b : ctx1 ≠ 3) (h2a : ctx2 ≠ 1) (h2b : ctx2 ≠ 3)
    (hfresh : ∀ lbp, st0 = some lbp →
        ¬(lbp.buttonId ≠ 0 ∧ t1 - lbp.timestamp < 2000 ∧ lbp.param = 2))
    (hclose : t2 - t1 < 2000) :
    (AdeoRemote.parseButtonWithContext 5 2 ctx1 t1 st0).1 = some "pressed_green_left"
  ∧ (AdeoRemote.parseButtonWithContext 6 2 ctx2 t2
        (AdeoRemote.parseButtonWithContext 5 2 ctx1 t1 st0).2).1
      = (AdeoRemote.parseButtonWithContext 5 2 ctx1 t1 st0).1 := by
  have hb5 : AdeoRemote.buttonMap 5 = none := rfl
  have hb6 : AdeoRemote.buttonMap 6 = none := rfl
  have hr1 : AdeoRemote.parseButtonWithContext 5 2 ctx1 t1 st0
      = (some "pressed_green_left", some ⟨5, 2, "pressed_green_left", t1⟩) := by
    rw [parseButtonWithContext_param2_fallthrough 5 ctx1 t1 st0 h1a h1b,
      parseButtonId_param2 5 t1 st0 hb5, determineGreen_miss 5 2 t1 st0 hfresh]
    norm_num
  have hr2 : AdeoRemote.parseButtonWithContext 6 2 ctx2 t2
      (some (⟨5, 2, "pressed_green_left", t1⟩ : AdeoRemote.LastButtonPress))
      = (some "pressed_green_left", some ⟨5, 2, "pressed_green_left", t1⟩) := by
    rw [parseButtonWithContext_param2_fallthrough 6 ctx2 t2 _ h2a h2b,
      parseButtonId_param2 6 t2 _ hb6,
      determineGreen_hit 6 2 t2 ⟨5, 2, "pressed_green_left", t1⟩ (by norm_num) hclose rfl]
  rw [hr1]
  exact ⟨rfl, by rw [hr2]⟩

/-- C1 witness: on a fresh device (no cache entry), frames with
identifierByte 5 at time 0 and identifierByte 6 at time 100 (context byte 0,
matching no table entry) both resolve to pressed_green_left. -/
theorem c1_sticky_resolution_witness :
    (AdeoRemote.parseButtonWithContext 5 2 0 0 none).1 = some "pressed_green_left"
  ∧ (AdeoRemote.parseButtonWithContext 6 2 0 100
        (AdeoRemote.parseButtonWithContext 5 2 0 0 none).2).1
      = (AdeoRemote.parseButtonWithContext 5 2 0 0 none).1 :=
  c1_sticky_resolution 0 0 0 100 none (by norm_num) (by norm_num) (by norm_num)
    (by norm_num) (fun lbp h => Option.noConfusion h) (by norm_num)
